import Mathlib

/-!
Verification development for the Reddit post generator pipeline (`app.py`).

The program is a linear orchestration pipeline over three external services:
a web-search HTTP API, a URL-content loader, and a chat language model.
We embed the pipeline shallowly:

* external services become oracle functions passed as parameters
  (`http`, `llm`, `fetch`); `none` models the service raising an exception;
* Python's `json.dumps` / `json.loads` become `jsonDumps` / `jsonLoads`
  over an inductive `Json` type (numbers are kept as their lexemes, and
  `\u` escapes decode to the corresponding code point);
* langchain's `CharacterTextSplitter` (separator `"\n"`, chunk size 3000,
  overlap 200) is embedded over `List Char` by `splitTextChars`;
* prompt templates become functions that return the template string with
  the slots substituted, exactly as `PromptTemplate.format` does.

All definitions are computable so concrete runs can be evaluated.
-/

namespace RedditGen

/-- A JSON value, as produced by Python's `json.loads`.  Numbers keep their
source lexeme (sufficient here: no claim depends on numeric arithmetic). -/
inductive Json where
  | null : Json
  | bool (b : Bool) : Json
  | num (lexeme : String) : Json
  | str (s : String) : Json
  | arr (elems : List Json) : Json
  | obj (members : List (String × Json)) : Json

/-- The opening-brace character, written via its code point. -/
def lbrace : Char := Char.ofNat 123

/-- The closing-brace character, written via its code point. -/
def rbrace : Char := Char.ofNat 125

/-- The double-quote character. -/
def dquote : Char := Char.ofNat 34

/-- The backslash character. -/
def bslash : Char := Char.ofNat 92

/-- The single-quote character. -/
def squote : Char := Char.ofNat 39

/-- Escape one character the way `json.dumps` does for the characters that
can occur in this development (quote, backslash, and common controls). -/
def jsonEscapeChar (c : Char) : String :=
  if c = dquote then "\x5c\x22"
  else if c = bslash then "\x5c\x5c"
  else if c = '\n' then "\x5c\x6e"
  else if c = '\t' then "\x5c\x74"
  else if c = '\x0d' then "\x5c\x72"
  else String.mk [c]

/-- Serialize a string literal as `json.dumps` does (quoted, escaped). -/
def jsonDumpStr (s : String) : String :=
  "\x22" ++ String.join (s.data.map jsonEscapeChar) ++ "\x22"

mutual

/-- Python `json.dumps` with its default separators `", "` and `": "`,
as used by `json.dumps(response_data)` and `json.dumps({"q": query})`. -/
def jsonDumps : Json → String
  | Json.null => "null"
  | Json.bool true => "true"
  | Json.bool false => "false"
  | Json.num l => l
  | Json.str s => jsonDumpStr s
  | Json.arr xs => "[" ++ jsonDumpsArr xs ++ "]"
  | Json.obj kvs => "\x7b" ++ jsonDumpsObj kvs ++ "\x7d"

/-- Comma-separated serialization of array elements. -/
def jsonDumpsArr : List Json → String
  | [] => ""
  | [x] => jsonDumps x
  | x :: y :: xs => jsonDumps x ++ ", " ++ jsonDumpsArr (y :: xs)

/-- Comma-separated serialization of object members. -/
def jsonDumpsObj : List (String × Json) → String
  | [] => ""
  | [kv] => jsonDumpStr kv.1 ++ ": " ++ jsonDumps kv.2
  | kv :: kv2 :: kvs => jsonDumpStr kv.1 ++ ": " ++ jsonDumps kv.2 ++ ", " ++ jsonDumpsObj (kv2 :: kvs)

end

/-- JSON insignificant whitespace. -/
def isJsonWs (c : Char) : Bool :=
  c = ' ' || c = '\n' || c = '\t' || c = '\x0d'

/-- Drop leading JSON whitespace. -/
def skipWs (l : List Char) : List Char :=
  l.dropWhile isJsonWs

/-- Decimal digit test. -/
def isDigitCh (c : Char) : Bool :=
  '0' ≤ c && c ≤ '9'

/-- Value of a hexadecimal digit, if it is one (code points: `0`-`9` are
48-57, `a`-`f` are 97-102, `A`-`F` are 65-70). -/
def hexVal (c : Char) : Option Nat :=
  let n := c.toNat
  if 48 ≤ n && n ≤ 57 then some (n - 48)
  else if 97 ≤ n && n ≤ 102 then some (n - 87)
  else if 65 ≤ n && n ≤ 70 then some (n - 55)
  else none

/-- Parse the body of a JSON string literal (after the opening quote),
returning the decoded characters and the input after the closing quote. -/
def parseStrBody (fuel : Nat) (l : List Char) : Option (List Char × List Char) :=
  match fuel, l with
  | 0, _ => none
  | _ + 1, [] => none
  | fuel + 1, c :: rest =>
    if c = dquote then some ([], rest)
    else if c = bslash then
      match rest with
      | [] => none
      | e :: rest2 =>
        if e = 'u' then
          match rest2 with
          | a :: b :: c2 :: d :: rest3 =>
            match hexVal a, hexVal b, hexVal c2, hexVal d with
            | some va, some vb, some vc, some vd =>
              (parseStrBody fuel rest3).map
                (fun p => (Char.ofNat (va * 4096 + vb * 256 + vc * 16 + vd) :: p.1, p.2))
            | _, _, _, _ => none
          | _ => none
        else
          (decodeEscape e).bind (fun d =>
            (parseStrBody fuel rest2).map (fun p => (d :: p.1, p.2)))
    else
      (parseStrBody fuel rest).map (fun p => (c :: p.1, p.2))
where
  /-- Decode one single-character JSON escape. -/
  decodeEscape (e : Char) : Option Char :=
    if e = dquote then some dquote
    else if e = bslash then some bslash
    else if e = '/' then some '/'
    else if e = 'n' then some '\n'
    else if e = 't' then some '\t'
    else if e = 'r' then some '\x0d'
    else if e = 'b' then some '\x08'
    else if e = 'f' then some '\x0c'
    else none

/-- Parse a JSON number, returning its lexeme and the remaining input. -/
def parseNum (l : List Char) : Option (List Char × List Char) :=
  let (sign, r1) :=
    match l with
    | '-' :: rest => (['-'], rest)
    | _ => (([] : List Char), l)
  let intPart := r1.takeWhile isDigitCh
  let r2 := r1.drop intPart.length
  if intPart = [] then none
  else
    let (frac, r3) :=
      match r2 with
      | '.' :: rest =>
        let ds := rest.takeWhile isDigitCh
        if ds = [] then (([] : List Char), r2) else ('.' :: ds, rest.drop ds.length)
      | _ => (([] : List Char), r2)
    let (expPart, r4) :=
      match r3 with
      | e :: rest =>
        if e = 'e' || e = 'E' then
          let (sgn, rest2) :=
            match rest with
            | '+' :: r5 => ((['+'] : List Char), r5)
            | '-' :: r5 => ((['-'] : List Char), r5)
            | _ => (([] : List Char), rest)
          let ds := rest2.takeWhile isDigitCh
          if ds = [] then (([] : List Char), r3)
          else (e :: (sgn ++ ds), rest2.drop ds.length)
        else (([] : List Char), r3)
      | [] => (([] : List Char), r3)
    some (sign ++ intPart ++ frac ++ expPart, r4)

mutual

/-- Recursive-descent parser for a JSON value (fuel-indexed; the fuel
chosen in `jsonLoads` is always sufficient). -/
def parseVal : Nat → List Char → Option (Json × List Char)
  | 0, _ => none
  | fuel + 1, l =>
    let l := skipWs l
    match l with
    | [] => none
    | c :: rest =>
      if c = 'n' then
        match rest with
        | 'u' :: 'l' :: 'l' :: r => some (Json.null, r)
        | _ => none
      else if c = 't' then
        match rest with
        | 'r' :: 'u' :: 'e' :: r => some (Json.bool true, r)
        | _ => none
      else if c = 'f' then
        match rest with
        | 'a' :: 'l' :: 's' :: 'e' :: r => some (Json.bool false, r)
        | _ => none
      else if c = dquote then
        (parseStrBody (fuel + 1) rest).map (fun p => (Json.str (String.mk p.1), p.2))
      else if c = '[' then
        let r := skipWs rest
        match r with
        | ']' :: r2 => some (Json.arr [], r2)
        | _ => (parseElems fuel r).map (fun p => (Json.arr p.1, p.2))
      else if c = lbrace then
        let r := skipWs rest
        match r with
        | b :: r2 =>
          if b = rbrace then some (Json.obj [], r2)
          else (parseMembers fuel r).map (fun p => (Json.obj p.1, p.2))
        | [] => none
      else if c = '-' || isDigitCh c then
        (parseNum l).map (fun p => (Json.num (String.mk p.1), p.2))
      else none

/-- Parse one or more array elements up to the closing bracket. -/
def parseElems : Nat → List Char → Option (List Json × List Char)
  | 0, _ => none
  | fuel + 1, l =>
    match parseVal fuel l with
    | none => none
    | some (v, r) =>
      match skipWs r with
      | ',' :: r2 =>
        (parseElems fuel r2).map (fun p => (v :: p.1, p.2))
      | ']' :: r2 => some ([v], r2)
      | _ => none

/-- Parse one or more object members up to the closing brace. -/
def parseMembers : Nat → List Char → Option (List (String × Json) × List Char)
  | 0, _ => none
  | fuel + 1, l =>
    match skipWs l with
    | c :: rest =>
      if c = dquote then
        match parseStrBody (fuel + 1) rest with
        | none => none
        | some (k, r) =>
          match skipWs r with
          | ':' :: r2 =>
            match parseVal fuel r2 with
            | none => none
            | some (v, r3) =>
              match skipWs r3 with
              | ',' :: r4 =>
                (parseMembers fuel r4).map (fun p => ((String.mk k, v) :: p.1, p.2))
              | c2 :: r4 =>
                if c2 = rbrace then some ([(String.mk k, v)], r4) else none
              | [] => none
          | _ => none
      else none
    | [] => none

end

/-- Python `json.loads`: parse the whole input as one JSON document;
`none` models `json.JSONDecodeError` (trailing garbage included). -/
def jsonLoads (s : String) : Option Json :=
  match parseVal (2 * s.length + 8) s.data with
  | some (v, rest) => if skipWs rest = [] then some v else none
  | none => none

/-! ## The text splitter

`summarise_content` builds
`CharacterTextSplitter(separator="\n", chunk_size=3000, chunk_overlap=200,
length_function=len)` and calls `split_documents`.  We embed langchain's
`CharacterTextSplitter` (the library the source imports): `split_text`
splits on the literal separator, drops empty pieces, and merges the pieces
back into chunks (`_merge_splits`), rejoining with the separator; a merged
chunk is stripped of surrounding whitespace and dropped if empty.  A single
piece longer than the chunk size is kept whole (the library only warns). -/

/-- The newline character, the configured separator. -/
def newlineChar : Char := Char.ofNat 10

/-- Python `str.split(sep)` for a one-character separator, as performed by
`re.split` on the literal separator inside `_split_text_with_regex`. -/
def pySplitChar (sep : Char) : List Char → List (List Char)
  | [] => [[]]
  | c :: rest =>
    if c = sep then [] :: pySplitChar sep rest
    else
      match pySplitChar sep rest with
      | [] => [[c]]
      | s :: ss => (c :: s) :: ss

/-- Python `str.strip()`: remove leading and trailing whitespace. -/
def pyStrip (l : List Char) : List Char :=
  ((l.dropWhile Char.isWhitespace).reverse.dropWhile Char.isWhitespace).reverse

/-- `TextSplitter._join_docs`: join the pending pieces with the separator,
strip the result, and drop it when empty. -/
def joinDocsChars (sep : List Char) (docs : List (List Char)) : Option (List Char) :=
  let text := pyStrip (List.intercalate sep docs)
  if text = [] then none else some text

/-- The `while` loop of `_merge_splits` that pops pieces from the front of
the pending window until it fits under the overlap/size bounds.  Returns the
remaining window and its running length. -/
def popOverlap (chunkSize chunkOverlap sepLen dLen : Nat) :
    List (List Char) → Nat → List (List Char) × Nat
  | [], total => ([], total)
  | c :: rest, total =>
    if total > chunkOverlap || (total + dLen + sepLen > chunkSize && total > 0) then
      popOverlap chunkSize chunkOverlap sepLen dLen rest
        (total - (c.length + if rest = [] then 0 else sepLen))
    else (c :: rest, total)

/-- The main loop of `TextSplitter._merge_splits`: fold over the pieces,
emitting a joined chunk whenever adding the next piece would overflow the
chunk size, and keeping an overlap window of pieces. -/
def mergeGo (chunkSize chunkOverlap : Nat) (sep : List Char) :
    List (List Char) → List (List Char) → Nat → List (List Char) → List (List Char)
  | [], currentDoc, _total, docs =>
    (match joinDocsChars sep currentDoc with
     | some doc => docs ++ [doc]
     | none => docs)
  | d :: ds, currentDoc, total, docs =>
    let dLen := d.length
    let sepExtra := if currentDoc = [] then 0 else sep.length
    if total + dLen + sepExtra > chunkSize then
      let docs2 :=
        if currentDoc = [] then docs
        else
          match joinDocsChars sep currentDoc with
          | some doc => docs ++ [doc]
          | none => docs
      let popped :=
        if currentDoc = [] then (currentDoc, total)
        else popOverlap chunkSize chunkOverlap sep.length dLen currentDoc total
      let cur2 := popped.1 ++ [d]
      let total2 := popped.2 + dLen + (if cur2.length > 1 then sep.length else 0)
      mergeGo chunkSize chunkOverlap sep ds cur2 total2 docs2
    else
      let cur2 := currentDoc ++ [d]
      let total2 := total + dLen + (if cur2.length > 1 then sep.length else 0)
      mergeGo chunkSize chunkOverlap sep ds cur2 total2 docs

/-- `TextSplitter._merge_splits` with the given bounds and separator. -/
def mergeSplitsChars (chunkSize chunkOverlap : Nat) (sep : List Char)
    (splits : List (List Char)) : List (List Char) :=
  mergeGo chunkSize chunkOverlap sep splits [] 0 []

/-- `CharacterTextSplitter.split_text` with the source's configuration:
separator `"\n"`, `chunk_size=3000`, `chunk_overlap=200`,
`length_function=len`, over the character list of the input. -/
def splitTextChars (l : List Char) : List (List Char) :=
  mergeSplitsChars 3000 200 [newlineChar]
    ((pySplitChar newlineChar l).filter (fun s => !s.isEmpty))

/-- `CharacterTextSplitter.split_text` at the `String` level. -/
def split_text (s : String) : List String :=
  (splitTextChars s.data).map String.mk

/-- A langchain `Document` as produced by `UnstructuredURLLoader`:
the extracted page text plus its `source` metadata entry. -/
structure Document where
  page_content : String
  source : String
deriving DecidableEq

/-- `TextSplitter.split_documents` / `create_documents`: split each
document's text and wrap every chunk as a new `Document` carrying a copy of
the originating document's metadata. -/
def split_documents (data : List Document) : List Document :=
  data.flatMap (fun d => (split_text d.page_content).map (fun c => ⟨c, d.source⟩))

/-! ## Python string conversions used by the pipeline

`LLMChain.predict(text=chunk, ...)` renders the template with `str.format`,
which applies `str()` to each argument.  The summarisation loop iterates
`for chunk in enumerate(text)`, so each `chunk` is an `(index, Document)`
tuple and the slot receives `str((index, Document(...)))`.
`generate_reddit_post` sets `summaries_str = str(summaries)`, the string
form of a Python list.  We embed these conversions for the argument shapes
that actually occur; `repr` quoting is modelled for strings free of quotes
and backslashes, which is all the development evaluates it on. -/

/-- Python `repr` of a string (single-quoted), for strings containing no
quote or backslash characters. -/
def pyReprStr (s : String) : String :=
  String.mk [squote] ++ s ++ String.mk [squote]

/-- Python `str` of a list of strings, e.g. `['a', 'b']`. -/
def pyStrList : List String → String
  | [] => "[]"
  | xs => "[" ++ String.intercalate ", " (xs.map pyReprStr) ++ "]"

/-- Python `repr` of a langchain `Document` with a `source` metadata entry:
`Document(page_content='...', metadata=\x7b'source': '...'\x7d)`. -/
def pyReprDocument (d : Document) : String :=
  "Document(page_content=" ++ pyReprStr d.page_content ++
    ", metadata=" ++ String.mk [lbrace] ++ pyReprStr "source" ++ ": " ++
    pyReprStr d.source ++ String.mk [rbrace] ++ ")"

/-- Python `str` of the `(index, Document)` pair yielded by
`enumerate(text)` in `summarise_content`. -/
def pyStrPair (i : Nat) (d : Document) : String :=
  "(" ++ toString i ++ ", " ++ pyReprDocument d ++ ")"

/-! ## Configuration and HTTP -/

/-- The module-level configuration: both API keys read from the process
environment.  `os.getenv` yields `None` (`none`) for an absent variable. -/
structure Config where
  serpapi : Option String
  openai : Option String
deriving DecidableEq

/-- The module-level startup code:
`SERPAPI_API_KEY = os.getenv("SERPAPI_API_KEY")` and
`OPENAI_API_KEY = os.getenv("OPENAI_API_KEY")`.  No validation occurs. -/
def loadConfig (env : String → Option String) : Config :=
  ⟨env "SERPAPI_API_KEY", env "OPENAI_API_KEY"⟩

/-- An outbound HTTP request as assembled by `requests.request`.
A header mapped to `none` models a `None` header value. -/
structure HttpRequest where
  method : String
  url : String
  headers : List (String × Option String)
  body : String
deriving DecidableEq

/-- An HTTP response: status code and raw body. -/
structure HttpResponse where
  status : Nat
  body : String
deriving DecidableEq

/-- The enumerated error kinds of the pipeline. -/
inductive PipelineError where
  | configurationError
  | networkError
  | parseError
  | fetchError
  | modelInvocationError
deriving DecidableEq

/-! ## The five pipeline stages -/

/-- The single request `search_for_articles` builds: POST to the fixed
serper endpoint, body `json.dumps({"q": query})`, API-key header. -/
def searchRequest (apiKey : Option String) (query : String) : HttpRequest :=
  { method := "POST"
    url := "https://google.serper.dev/search"
    headers := [("X-API-KEY", apiKey), ("Content-Type", some "application/json")]
    body := jsonDumps (Json.obj [("q", Json.str query)]) }

/-- `search_for_articles`: issue the one request and parse `response.json()`.
`http` returning `none` models a transport exception from `requests`; the
status code of a delivered response is never inspected. -/
def search_for_articles (apiKey : Option String) (query : String)
    (http : HttpRequest → Option HttpResponse) : Except PipelineError Json :=
  match http (searchRequest apiKey query) with
  | none => Except.error PipelineError.networkError
  | some response =>
    match jsonLoads response.body with
    | none => Except.error PipelineError.parseError
    | some v => Except.ok v

/-- The selector's prompt template with `response_str` and `query`
substituted, exactly as `PromptTemplate.format` renders it. -/
def findArticlePrompt (response_str query : String) : String :=
  "\n    You\x27re a world class researcher, and are very good at finding the most relevant articles for certain topics;\n    "
    ++ response_str
    ++ "\n    Above is a list of search results for the query "
    ++ query
    ++ ".\n    Please choose the best article from the list, return ONLY an array of the url, do not include anything else;\n    "

/-- `find_the_best_article_urls`: serialize the search results, invoke the
model once, and return `json.loads` of its raw output.  The parsed value is
returned as-is, whatever its shape. -/
def find_the_best_article_urls (response_data : Json) (query : String)
    (llm : String → Option String) : Except PipelineError Json :=
  let response_str := jsonDumps response_data
  match llm (findArticlePrompt response_str query) with
  | none => Except.error PipelineError.modelInvocationError
  | some generated_urls =>
    match jsonLoads generated_urls with
    | none => Except.error PipelineError.parseError
    | some url_list => Except.ok url_list

/-- `get_content_from_urls`: `UnstructuredURLLoader(urls=...).load()`.
The loader is external; the oracle receives the parsed url value unchanged
and `none` models a loader exception. -/
def get_content_from_urls (urls : Json)
    (fetch : Json → Option (List Document)) : Except PipelineError (List Document) :=
  match fetch urls with
  | none => Except.error PipelineError.fetchError
  | some data => Except.ok data

/-- The summariser's prompt template with `text` and `query` substituted. -/
def summarisePrompt (text query : String) : String :=
  "\n    "
    ++ text
    ++ "\n    You\x27re a world class researcher, and you\x27ll try to summarise the text above in order to create a reddit post "
    ++ query
    ++ "\n    Please follow all of the following rules when summarising:\n    1/ Make sure the content is engaging information with good data\n    2/ Make sure the content is not too long, it should be no more than 40,000 characters\n    3/ The content should address the "
    ++ query
    ++ " topic very well\n    4/ The content needs to be viral, and get at least 1000 likes\n    5/ The content needs to written in a way that is easy to read and understand\n    6/ The content needs to give the reader some actionable advice and insights\n    \n    SUMMARY:\n    "

/-- The `for chunk in enumerate(text)` loop of `summarise_content`: the
loop variable is the `(index, chunk)` tuple, so the prompt's text slot
receives `str((index, chunk))`.  One model call per chunk, in order; a
failing call aborts the stage. -/
def summariseLoop (llm : String → Option String) (query : String) :
    Nat → List Document → Except PipelineError (List String)
  | _, [] => Except.ok []
  | i, d :: rest =>
    match llm (summarisePrompt (pyStrPair i d) query) with
    | none => Except.error PipelineError.modelInvocationError
    | some summary =>
      match summariseLoop llm query (i + 1) rest with
      | Except.error e => Except.error e
      | Except.ok summaries => Except.ok (summary :: summaries)

/-- `summarise_content`: split the documents with the configured splitter,
then summarise each chunk with one model call. -/
def summarise_content (data : List Document) (query : String)
    (llm : String → Option String) : Except PipelineError (List String) :=
  summariseLoop llm query 0 (split_documents data)

/-- The post generator's prompt template with `summaries_str` and `query`
substituted. -/
def generatePrompt (summaries_str query : String) : String :=
  "\n    "
    ++ summaries_str
    ++ "\n    You are a world class researcher and reddit user with a large amount of karma, The text above is some content about\n    "
    ++ query
    ++ ". Please write a reddit post about "
    ++ query
    ++ " using the text above, and following all the rules below:\n    1/ The post needs to be engaging, informative with good data\n    2/ Make sure the post is not too long, it should be no more than 40,000 characters\n    3/ The post should address the "
    ++ query
    ++ " topic very well\n    4/ The post needs to be viral, and get at least 1000 likes\n    5/ The post needs to written in a way that is easy to read and understand\n    6/ The post needs to give the reader some actionable advice and insights\n    \n    REDDIT POST:\n    "

/-- `generate_reddit_post`: set `summaries_str = str(summaries)`, invoke
the model once on the rendered template, and return its output verbatim. -/
def generate_reddit_post (summaries : List String) (query : String)
    (llm : String → Option String) : Except PipelineError String :=
  let summaries_str := pyStrList summaries
  match llm (generatePrompt summaries_str query) with
  | none => Except.error PipelineError.modelInvocationError
  | some reddit_post => Except.ok reddit_post

/-! ## The end-to-end pipeline (`main`) -/

/-- The five pipeline stages, in order. -/
inductive Stage where
  | searchStage
  | selectStage
  | fetchStage
  | summarizeStage
  | generateStage
deriving DecidableEq

/-- Outcome of one end-to-end run: the final result and the list of stages
entered, in execution order. -/
structure RunResult where
  result : Except PipelineError String
  stages : List Stage

/-- The pipeline body of `main` for a non-empty query: the five stages run
strictly in sequence, each consuming the full output of the previous one;
the first error aborts the run (the UI progress bars and expanders carry no
logic and are omitted).  `stages` records every stage that started. -/
def runPipeline (cfg : Config) (query : String)
    (http : HttpRequest → Option HttpResponse)
    (llm : String → Option String)
    (fetch : Json → Option (List Document)) : RunResult :=
  match search_for_articles cfg.serpapi query http with
  | Except.error e => ⟨Except.error e, [Stage.searchStage]⟩
  | Except.ok search_results =>
    match find_the_best_article_urls search_results query llm with
    | Except.error e => ⟨Except.error e, [Stage.searchStage, Stage.selectStage]⟩
    | Except.ok urls =>
      match get_content_from_urls urls fetch with
      | Except.error e =>
        ⟨Except.error e, [Stage.searchStage, Stage.selectStage, Stage.fetchStage]⟩
      | Except.ok data =>
        match summarise_content data query llm with
        | Except.error e =>
          ⟨Except.error e,
            [Stage.searchStage, Stage.selectStage, Stage.fetchStage, Stage.summarizeStage]⟩
        | Except.ok summaries =>
          match generate_reddit_post summaries query llm with
          | Except.error e =>
            ⟨Except.error e,
              [Stage.searchStage, Stage.selectStage, Stage.fetchStage,
                Stage.summarizeStage, Stage.generateStage]⟩
          | Except.ok post =>
            ⟨Except.ok post,
              [Stage.searchStage, Stage.selectStage, Stage.fetchStage,
                Stage.summarizeStage, Stage.generateStage]⟩

/-- The spec's predicted chunk count for a document of length `L` with no
separator matches: `ceil((L - 200) / (3000 - 200))`, stated as it is
written in the spec's testable properties. -/
def specChunkCount (L : Nat) : Nat :=
  (L - 200 + (2800 - 1)) / 2800

/-! ## Splitter lemmas -/

theorem pySplitChar_of_not_mem {sep : Char} :
    ∀ {l : List Char}, sep ∉ l → pySplitChar sep l = [l] := by
  intro l
  induction l with
  | nil => intro _; rfl
  | cons c rest ih =>
    intro h
    have hc : ¬ c = sep := fun hcs => h (hcs ▸ List.mem_cons_self c rest)
    have hrest : sep ∉ rest := fun hm => h (List.mem_cons_of_mem c hm)
    simp only [pySplitChar, if_neg hc, ih hrest]

theorem mergeGo_singleton (d : List Char) :
    mergeGo 3000 200 [newlineChar] [d] [] 0 [] =
      (if pyStrip d = [] then [] else [pyStrip d]) := by
  have hjoin : List.intercalate [newlineChar] [d] = d := by
    simp [List.intercalate, List.intersperse]
  rw [mergeGo]
  norm_num
  rw [mergeGo]
  unfold joinDocsChars
  rw [hjoin]
  by_cases hd : pyStrip d = []
  · simp [hd]
  · simp [hd]

/-- On a text with no occurrence of the separator, the splitter produces the
stripped text as a single chunk (or nothing if the text strips to empty),
regardless of the text's length. -/
theorem splitTextChars_of_no_sep (l : List Char) (h : newlineChar ∉ l) :
    splitTextChars l = if pyStrip l = [] then [] else [pyStrip l] := by
  unfold splitTextChars mergeSplitsChars
  rw [pySplitChar_of_not_mem h]
  match l, h with
  | [], _ =>
    simp [mergeGo, joinDocsChars, pyStrip, List.intercalate]
  | c :: cs, _ =>
    rw [show ([c :: cs].filter (fun s => !s.isEmpty)) = [c :: cs] from rfl,
      mergeGo_singleton]

theorem pyStrip_replicate_a (n : Nat) :
    pyStrip (List.replicate n 'a') = List.replicate n 'a' := by
  have hdrop : ∀ m : Nat,
      (List.replicate m 'a').dropWhile Char.isWhitespace = List.replicate m 'a' := by
    intro m
    cases m with
    | zero => rfl
    | succ k =>
      rw [List.replicate_succ, List.dropWhile_cons,
        if_neg (by decide : ¬(Char.isWhitespace 'a' = true))]
  unfold pyStrip
  rw [hdrop, List.reverse_replicate, hdrop, List.reverse_replicate]

/-- A 5000-character document with no separator occurrence (the spec's own
end-to-end scenario length). -/
def noSepDoc : List Char := List.replicate 5000 'a'

/-- C3 counterexample: on a 5000-character text with no separator match the
splitter returns one single chunk, while the spec's formula
`ceil((L - 200) / 2800)` predicts two chunks. -/
theorem chunk_count_formula_refuted :
    (splitTextChars noSepDoc).length = 1 ∧
      specChunkCount 5000 = 2 ∧
      (splitTextChars noSepDoc).length ≠ specChunkCount noSepDoc.length := by
  have hmem : newlineChar ∉ noSepDoc := by
    unfold noSepDoc
    intro hm
    have := (List.mem_replicate.mp hm).2
    exact absurd this (by decide)
  have hstrip : pyStrip noSepDoc = noSepDoc := pyStrip_replicate_a 5000
  have hlen : noSepDoc.length = 5000 := List.length_replicate 5000 'a'
  have hne : pyStrip noSepDoc ≠ [] := by
    rw [hstrip]
    intro h0
    rw [h0] at hlen
    exact absurd hlen (by decide)
  have hsplit : splitTextChars noSepDoc = [pyStrip noSepDoc] := by
    rw [splitTextChars_of_no_sep noSepDoc hmem, if_neg hne]
  refine ⟨by rw [hsplit]; rfl, by decide, ?_⟩
  rw [hsplit, hlen]
  simp only [List.length_singleton]
  decide

/-- C3: the chunk count of the Summarizer's splitter on separator-free text.
The spec's ceil formula is refuted above; what actually holds is that the
splitter emits exactly one chunk (the stripped text) for every
separator-free input whose stripped content is non-empty, whatever its
length `L`, the case `L ≤ 3000` included; the count is a deterministic
function of the input text. -/
theorem split_text_no_sep_single_chunk (s : String)
    (h1 : newlineChar ∉ s.data) (h2 : pyStrip s.data ≠ []) :
    split_text s = [String.mk (pyStrip s.data)] ∧ (split_text s).length = 1 := by
  have hsplit : splitTextChars s.data = [pyStrip s.data] := by
    rw [splitTextChars_of_no_sep s.data h1, if_neg h2]
  unfold split_text
  rw [hsplit]
  exact ⟨rfl, rfl⟩

/-- C3 witness: the single-chunk theorem applied to the concrete two
character text `"ab"`. -/
theorem split_text_no_sep_single_chunk_holds :
    split_text "ab" = [String.mk (pyStrip "ab".data)] ∧ (split_text "ab").length = 1 :=
  split_text_no_sep_single_chunk "ab" (by decide) (by decide)

/-! ## Error-kind lemmas for the stage functions -/

theorem search_for_articles_error_kinds (apiKey : Option String) (query : String)
    (http : HttpRequest → Option HttpResponse) (e : PipelineError)
    (h : search_for_articles apiKey query http = Except.error e) :
    e = PipelineError.networkError ∨ e = PipelineError.parseError := by
  unfold search_for_articles at h
  split at h
  · injection h with h2
    exact Or.inl h2.symm
  · split at h
    · injection h with h2
      exact Or.inr h2.symm
    · exact absurd h (by simp)

theorem find_the_best_article_urls_error_kinds (response_data : Json) (query : String)
    (llm : String → Option String) (e : PipelineError)
    (h : find_the_best_article_urls response_data query llm = Except.error e) :
    e = PipelineError.modelInvocationError ∨ e = PipelineError.parseError := by
  unfold find_the_best_article_urls at h
  dsimp only at h
  split at h
  · injection h with h2
    exact Or.inl h2.symm
  · split at h
    · injection h with h2
      exact Or.inr h2.symm
    · exact absurd h (by simp)

theorem get_content_from_urls_error_kinds (urls : Json)
    (fetch : Json → Option (List Document)) (e : PipelineError)
    (h : get_content_from_urls urls fetch = Except.error e) :
    e = PipelineError.fetchError := by
  unfold get_content_from_urls at h
  split at h
  · injection h with h2
    exact h2.symm
  · exact absurd h (by simp)

theorem summariseLoop_error_kind (llm : String → Option String) (query : String) :
    ∀ (cs : List Document) (k : Nat) (e : PipelineError),
      summariseLoop llm query k cs = Except.error e →
      e = PipelineError.modelInvocationError := by
  intro cs
  induction cs with
  | nil =>
    intro k e h
    exact absurd h (by simp [summariseLoop])
  | cons d rest ih =>
    intro k e h
    unfold summariseLoop at h
    split at h
    · injection h with h2
      exact h2.symm
    · split at h
      · injection h with h2
        exact h2 ▸ ih (k + 1) _ (by assumption)
      · exact absurd h (by simp)

theorem summarise_content_error_kind (data : List Document) (query : String)
    (llm : String → Option String) (e : PipelineError)
    (h : summarise_content data query llm = Except.error e) :
    e = PipelineError.modelInvocationError :=
  summariseLoop_error_kind llm query (split_documents data) 0 e h

theorem generate_reddit_post_error_kind (summaries : List String) (query : String)
    (llm : String → Option String) (e : PipelineError)
    (h : generate_reddit_post summaries query llm = Except.error e) :
    e = PipelineError.modelInvocationError := by
  unfold generate_reddit_post at h
  dsimp only at h
  split at h
  · injection h with h2
    exact h2.symm
  · exact absurd h (by simp)

/-! ## Pipeline structure lemmas -/

/-- The prefixes of the stage order: the only possible values of the
executed-stage trace. -/
def stagePrefixes : List (List Stage) :=
  [[Stage.searchStage],
   [Stage.searchStage, Stage.selectStage],
   [Stage.searchStage, Stage.selectStage, Stage.fetchStage],
   [Stage.searchStage, Stage.selectStage, Stage.fetchStage, Stage.summarizeStage],
   [Stage.searchStage, Stage.selectStage, Stage.fetchStage, Stage.summarizeStage,
     Stage.generateStage]]

theorem runPipeline_stages_cases (cfg : Config) (query : String)
    (http : HttpRequest → Option HttpResponse) (llm : String → Option String)
    (fetch : Json → Option (List Document)) :
    (runPipeline cfg query http llm fetch).stages ∈ stagePrefixes := by
  unfold runPipeline
  repeat' split
  all_goals simp [stagePrefixes]

theorem runPipeline_never_config_error (cfg : Config) (query : String)
    (http : HttpRequest → Option HttpResponse) (llm : String → Option String)
    (fetch : Json → Option (List Document)) :
    (runPipeline cfg query http llm fetch).result ≠
      Except.error PipelineError.configurationError := by
  unfold runPipeline
  split
  · next e h =>
    intro hc
    injection hc with h2
    rcases search_for_articles_error_kinds _ _ _ _ h with h3 | h3 <;> simp_all
  · next results h =>
    split
    · next e h4 =>
      intro hc
      injection hc with h2
      rcases find_the_best_article_urls_error_kinds _ _ _ _ h4 with h3 | h3 <;> simp_all
    · next urls h5 =>
      split
      · next e h6 =>
        intro hc
        injection hc with h2
        have := get_content_from_urls_error_kinds _ _ _ h6
        simp_all
      · next data h7 =>
        split
        · next e h8 =>
          intro hc
          injection hc with h2
          have := summarise_content_error_kind _ _ _ _ h8
          simp_all
        · next summaries h9 =>
          split
          · next e h10 =>
            intro hc
            injection hc with h2
            have := generate_reddit_post_error_kind _ _ _ _ h10
            simp_all
          · next post h11 =>
            simp

/-! ## C4: summaries preserve chunk order -/

theorem summariseLoop_ok_spec (llm : String → Option String) (query : String) :
    ∀ (cs : List Document) (k : Nat) (ss : List String),
      summariseLoop llm query k cs = Except.ok ss →
      ss.length = cs.length ∧
        ∀ i d s, cs[i]? = some d → ss[i]? = some s →
          llm (summarisePrompt (pyStrPair (k + i) d) query) = some s := by
  intro cs
  induction cs with
  | nil =>
    intro k ss h
    have hss : ss = [] := by
      have h2 : Except.ok (ε := PipelineError) ([] : List String) = Except.ok ss := h
      injection h2 with h3
      exact h3.symm
    subst hss
    refine ⟨rfl, ?_⟩
    intro i d s hd _
    simp at hd
  | cons d0 rest ih =>
    intro k ss h
    unfold summariseLoop at h
    split at h
    · exact absurd h (by simp)
    · next s0 hs0 =>
      split at h
      · exact absurd h (by simp)
      · next ss2 hss2 =>
        injection h with h2
        obtain ⟨hlen, hspec⟩ := ih (k + 1) ss2 hss2
        subst h2
        constructor
        · simp [hlen]
        · intro i d s hd hs
          cases i with
          | zero =>
            simp at hd hs
            subst hd
            subst hs
            simpa using hs0
          | succ n =>
            simp at hd hs
            have h4 := hspec n d s (by simpa using hd) (by simpa using hs)
            rw [show k + (n + 1) = k + 1 + n by omega]
            exact h4

/-- C4: for every chunk list, a successful `summarise_content` returns one
summary per chunk, in chunk order: `summaries[i]` is exactly the model
output of the invocation made for chunk `i`. -/
theorem summaries_preserve_chunk_order (data : List Document) (query : String)
    (llm : String → Option String) (summaries : List String)
    (h : summarise_content data query llm = Except.ok summaries) :
    summaries.length = (split_documents data).length ∧
      ∀ i d s, (split_documents data)[i]? = some d → summaries[i]? = some s →
        llm (summarisePrompt (pyStrPair i d) query) = some s := by
  obtain ⟨hlen, hspec⟩ :=
    summariseLoop_ok_spec llm query (split_documents data) 0 summaries h
  refine ⟨hlen, ?_⟩
  intro i d s hd hs
  simpa using hspec i d s hd hs

/-- C4 witness: the order theorem applied to a concrete one-chunk run. -/
theorem summaries_preserve_chunk_order_holds :
    (["S"] : List String).length = (split_documents [⟨"hi", "u"⟩]).length :=
  (summaries_preserve_chunk_order [⟨"hi", "u"⟩] "q" (fun _ => some "S") ["S"] rfl).1

/-! ## C1: what the per-chunk prompt slot actually receives -/

/-- C1: evaluating `summarise_content` at a one-document input with the
identity model oracle exhibits the issued prompt: the text slot holds
`str((0, Document(...)))`, the `enumerate` tuple, which differs both from
the chunk text itself and from the prompt the spec prescribes. -/
theorem summarise_prompt_gets_tuple_not_chunk :
    summarise_content [⟨"hello world", "http://u"⟩] "q" (fun p => some p)
        = Except.ok [summarisePrompt (pyStrPair 0 ⟨"hello world", "http://u"⟩) "q"]
      ∧ pyStrPair 0 ⟨"hello world", "http://u"⟩ ≠ "hello world"
      ∧ summarisePrompt (pyStrPair 0 ⟨"hello world", "http://u"⟩) "q"
          ≠ summarisePrompt "hello world" "q" :=
  ⟨rfl, by decide, by decide⟩

/-! ## C5: the selector parse boundary -/

/-- C5 counterexample: a model output of `"[]"` parses as valid structured
data, and the selector then returns the empty sequence, contradicting the
claimed non-emptiness. -/
theorem selector_accepts_empty_array :
    jsonLoads "[]" = some (Json.arr []) ∧
      find_the_best_article_urls (Json.obj []) "q" (fun _ => some "[]")
        = Except.ok (Json.arr []) :=
  ⟨rfl, rfl⟩

/-- C5: at the parse boundary the selector either returns `json.loads` of
the model output (whatever value that is, an empty array included) or fails
with a ParseError; no non-emptiness or element-type guarantee exists. -/
theorem selector_parse_dichotomy (response_data : Json) (query : String)
    (llm : String → Option String) (out : String)
    (hout : llm (findArticlePrompt (jsonDumps response_data) query) = some out) :
    (∀ v, jsonLoads out = some v →
        find_the_best_article_urls response_data query llm = Except.ok v) ∧
      (jsonLoads out = none →
        find_the_best_article_urls response_data query llm
          = Except.error PipelineError.parseError) := by
  unfold find_the_best_article_urls
  dsimp only
  rw [hout]
  dsimp only
  constructor
  · intro v hv
    rw [hv]
  · intro hn
    rw [hn]

/-- C5 witness: prose model output fails with a ParseError. -/
theorem selector_parse_dichotomy_holds :
    find_the_best_article_urls (Json.obj []) "q"
        (fun _ => some "the best article is x")
      = Except.error PipelineError.parseError :=
  (selector_parse_dichotomy (Json.obj []) "q"
    (fun _ => some "the best article is x") "the best article is x" rfl).2 rfl

/-! ## C2: the post generator -/

/-- C2 counterexample: the block embedded in the final prompt is
`str(summaries)` (for `["a", "b"]` the text `['a', 'b']`),
which is not the plain summary texts joined by any separator: joined text
would begin with the first summary's first character. -/
theorem post_block_not_plain_join :
    ¬ ∃ sep : String, pyStrList ["a", "b"] = "a" ++ sep ++ "b" := by
  rintro ⟨sep, h⟩
  have h2 : (pyStrList ["a", "b"]).data = ("a" ++ sep ++ "b").data := by rw [h]
  rw [String.data_append, String.data_append] at h2
  have h3 : ("a".data ++ sep.data ++ "b".data).head? = some 'a' := by
    rw [show "a".data = ['a'] from rfl]
    rfl
  have h4 : (pyStrList ["a", "b"]).data.head? = some '[' := rfl
  have h5 : some '[' = some 'a' := by rw [← h3, ← h4, h2]
  injection h5 with h6
  exact absurd h6 (by decide)

/-- C2: the post generator renders its single prompt from
`str(summaries)` (the Python list representation) and the query, invokes
the model exactly once (its output depends only on the oracle's value at
that one prompt), and returns the model output verbatim. -/
theorem post_generator_single_call_verbatim (summaries : List String)
    (query : String) (llm llm2 : String → Option String) :
    (∀ out, llm (generatePrompt (pyStrList summaries) query) = some out →
        generate_reddit_post summaries query llm = Except.ok out) ∧
      (llm (generatePrompt (pyStrList summaries) query)
            = llm2 (generatePrompt (pyStrList summaries) query) →
        generate_reddit_post summaries query llm
          = generate_reddit_post summaries query llm2) := by
  constructor
  · intro out hout
    unfold generate_reddit_post
    dsimp only
    rw [hout]
  · intro hagree
    unfold generate_reddit_post
    dsimp only
    rw [hagree]

/-- C2 witness: the verbatim-return theorem at a concrete oracle. -/
theorem post_generator_single_call_verbatim_holds :
    generate_reddit_post ["a"] "q" (fun _ => some "POST") = Except.ok "POST" :=
  (post_generator_single_call_verbatim ["a"] "q" (fun _ => some "POST")
    (fun _ => some "POST")).1 "POST" rfl

/-! ## C6: what a successful run returns -/

/-- Search results used by the concrete end-to-end run. -/
def searchJson1 : Json := Json.obj [("organic", Json.arr [])]

/-- HTTP oracle of the concrete run: always delivers the search body. -/
def http1 : HttpRequest → Option HttpResponse :=
  fun _ => some ⟨200, "\x7b\"organic\": []\x7d"⟩

/-- Model oracle of the concrete run: answers the selector prompt with a
one-url array and every other prompt with the empty string. -/
def llm1 : String → Option String := fun p =>
  if p = findArticlePrompt (jsonDumps searchJson1) "q" then some "[\"http://u\"]"
  else some ""

/-- Loader oracle of the concrete run: one short document. -/
def fetch1 : Json → Option (List Document) :=
  fun _ => some [⟨"hi", "http://u"⟩]

set_option maxRecDepth 10000 in
/-- C6 counterexample: a run in which every stage succeeds but the final
model output is empty completes successfully with the empty string as its
post; no emptiness check exists anywhere in the pipeline. -/
theorem pipeline_returns_empty_post :
    (runPipeline ⟨some "sk", some "ok"⟩ "q" http1 llm1 fetch1).result
        = Except.ok ""
      ∧ ("" : String).length = 0 :=
  ⟨rfl, rfl⟩

/-- C6: whenever the pipeline completes successfully, the returned post is
exactly the model output of the final generation call, verbatim — which may
be the empty string; otherwise the pipeline fails with one of the
enumerated error kinds. -/
theorem pipeline_post_is_final_model_output (cfg : Config) (query : String)
    (http : HttpRequest → Option HttpResponse) (llm : String → Option String)
    (fetch : Json → Option (List Document)) (post : String)
    (h : (runPipeline cfg query http llm fetch).result = Except.ok post) :
    ∃ summaries_str, llm (generatePrompt summaries_str query) = some post := by
  unfold runPipeline at h
  split at h
  · exact absurd h (by simp)
  · split at h
    · exact absurd h (by simp)
    · split at h
      · exact absurd h (by simp)
      · split at h
        · exact absurd h (by simp)
        · next summaries h9 =>
          split at h
          · exact absurd h (by simp)
          · next post2 h11 =>
            have hpost : post2 = post := by
              have h12 : Except.ok (ε := PipelineError) post2 = Except.ok post := h
              injection h12 with h13
            unfold generate_reddit_post at h11
            dsimp only at h11
            refine ⟨pyStrList summaries, ?_⟩
            split at h11
            · exact absurd h11 (by simp)
            · next rp hrp =>
              injection h11 with h14
              rw [← hpost, ← h14]
              exact hrp

set_option maxRecDepth 10000 in
/-- C6 witness: the verbatim theorem applied to the concrete empty-output
run. -/
theorem pipeline_post_is_final_model_output_holds :
    ∃ summaries_str, llm1 (generatePrompt summaries_str "q") = some "" :=
  pipeline_post_is_final_model_output ⟨some "sk", some "ok"⟩ "q" http1 llm1
    fetch1 "" rfl

/-! ## C7: configuration handling at startup -/

/-- C7 counterexample: with both environment keys absent, the run still
enters the search stage (the outbound call is attempted) and fails there
with a NetworkError from the deferred call — not with a configuration
error before any outbound call. -/
theorem missing_keys_do_not_fail_fast :
    runPipeline (loadConfig (fun _ => none)) "q" (fun _ => none) (fun _ => none)
          (fun _ => none)
        = ⟨Except.error PipelineError.networkError, [Stage.searchStage]⟩
      ∧ PipelineError.networkError ≠ PipelineError.configurationError :=
  ⟨rfl, by decide⟩

/-- C7: the startup configuration load never validates the keys: an absent
key is carried as `none` straight into the search request header, the
pipeline never raises a configuration error, and the search stage always
executes regardless of key presence. -/
theorem config_load_never_fails (env : String → Option String) (query : String)
    (http : HttpRequest → Option HttpResponse) (llm : String → Option String)
    (fetch : Json → Option (List Document)) :
    (loadConfig env).serpapi = env "SERPAPI_API_KEY"
      ∧ (searchRequest (loadConfig env).serpapi query).headers
          = [("X-API-KEY", env "SERPAPI_API_KEY"),
              ("Content-Type", some "application/json")]
      ∧ (runPipeline (loadConfig env) query http llm fetch).result
          ≠ Except.error PipelineError.configurationError
      ∧ Stage.searchStage ∈ (runPipeline (loadConfig env) query http llm fetch).stages := by
  refine ⟨rfl, rfl, runPipeline_never_config_error _ _ _ _ _, ?_⟩
  have hmem := runPipeline_stages_cases (loadConfig env) query http llm fetch
  simp only [stagePrefixes, List.mem_cons, List.not_mem_nil, or_false] at hmem
  rcases hmem with h | h | h | h | h <;> rw [h] <;> decide

/-! ## C8: stage sequencing and the malformed-selector failure -/

theorem malformed_select_stops_pipeline (cfg : Config) (query : String)
    (http : HttpRequest → Option HttpResponse) (llm : String → Option String)
    (fetch : Json → Option (List Document)) (results : Json) (s : String)
    (hsearch : search_for_articles cfg.serpapi query http = Except.ok results)
    (hout : llm (findArticlePrompt (jsonDumps results) query) = some s)
    (hbad : jsonLoads s = none) :
    (runPipeline cfg query http llm fetch).result
        = Except.error PipelineError.parseError
      ∧ (runPipeline cfg query http llm fetch).stages
          = [Stage.searchStage, Stage.selectStage]
      ∧ Stage.fetchStage ∉ (runPipeline cfg query http llm fetch).stages
      ∧ Stage.summarizeStage ∉ (runPipeline cfg query http llm fetch).stages
      ∧ Stage.generateStage ∉ (runPipeline cfg query http llm fetch).stages
      ∧ ∀ (cfg2 : Config) (query2 : String) (http2 : HttpRequest → Option HttpResponse)
          (llm2 : String → Option String) (fetch2 : Json → Option (List Document)),
          (runPipeline cfg2 query2 http2 llm2 fetch2).stages ∈ stagePrefixes := by
  have hfind : find_the_best_article_urls results query llm
      = Except.error PipelineError.parseError := by
    unfold find_the_best_article_urls
    dsimp only
    rw [hout]
    dsimp only
    rw [hbad]
  have hrun : runPipeline cfg query http llm fetch
      = ⟨Except.error PipelineError.parseError,
          [Stage.searchStage, Stage.selectStage]⟩ := by
    unfold runPipeline
    rw [hsearch]
    dsimp only
    rw [hfind]
  rw [hrun]
  exact ⟨rfl, rfl, by decide, by decide, by decide,
    fun a b c d e => runPipeline_stages_cases a b c d e⟩

/-- HTTP oracle for the C8 witness: delivers a body that parses. -/
def httpC8 : HttpRequest → Option HttpResponse := fun _ => some ⟨200, "[]"⟩

/-- Model oracle for the C8 witness: always returns prose. -/
def llmC8 : String → Option String := fun _ => some "prose not json"

/-- C8 witness: in a concrete run whose selector output is prose, execution
stops after the select stage. -/
theorem malformed_select_stops_pipeline_holds :
    (runPipeline ⟨some "k", some "o"⟩ "q" httpC8 llmC8 (fun _ => some [])).stages
      = [Stage.searchStage, Stage.selectStage] :=
  (malformed_select_stops_pipeline ⟨some "k", some "o"⟩ "q" httpC8 llmC8
    (fun _ => some []) (Json.arr []) "prose not json" rfl rfl rfl).2.1

/-! ## C9: the shape of the one search request -/

theorem search_builds_single_post_request (apiKey : Option String) (query : String)
    (http : HttpRequest → Option HttpResponse) :
    (searchRequest apiKey query).method = "POST"
      ∧ (searchRequest apiKey query).url = "https://google.serper.dev/search"
      ∧ (searchRequest apiKey query).body
          = jsonDumps (Json.obj [("q", Json.str query)])
      ∧ (searchRequest apiKey query).headers
          = [("X-API-KEY", apiKey), ("Content-Type", some "application/json")]
      ∧ (∀ resp, http (searchRequest apiKey query) = some resp →
          search_for_articles apiKey query http
            = match jsonLoads resp.body with
              | some v => Except.ok v
              | none => Except.error PipelineError.parseError)
      ∧ ∀ (http2 : HttpRequest → Option HttpResponse),
          http (searchRequest apiKey query) = http2 (searchRequest apiKey query) →
          search_for_articles apiKey query http
            = search_for_articles apiKey query http2 := by
  refine ⟨rfl, rfl, rfl, rfl, ?_, ?_⟩
  · intro resp hresp
    unfold search_for_articles
    rw [hresp]
    dsimp only
    cases jsonLoads resp.body <;> rfl
  · intro http2 hagree
    unfold search_for_articles
    rw [hagree]

/-- C9 witness: the request theorem applied to a concrete responder. -/
theorem search_builds_single_post_request_holds :
    search_for_articles (some "key") "ev" (fun _ => some ⟨200, "\x7b\x7d"⟩)
      = Except.ok (Json.obj []) :=
  (search_builds_single_post_request (some "key") "ev"
    (fun _ => some ⟨200, "\x7b\x7d"⟩)).2.2.2.2.1 ⟨200, "\x7b\x7d"⟩ rfl

/-! ## C10: the status code is never inspected -/

theorem response_parsed_regardless_of_status (apiKey : Option String)
    (query : String) (http : HttpRequest → Option HttpResponse) (status : Nat)
    (body : String) (v : Json)
    (hresp : http (searchRequest apiKey query) = some ⟨status, body⟩)
    (hjson : jsonLoads body = some v) :
    search_for_articles apiKey query http = Except.ok v
      ∧ ∀ (status2 : Nat) (http2 : HttpRequest → Option HttpResponse),
          http2 (searchRequest apiKey query) = some ⟨status2, body⟩ →
          search_for_articles apiKey query http2 = Except.ok v := by
  constructor
  · unfold search_for_articles
    rw [hresp]
    dsimp only
    rw [hjson]
  · intro status2 http2 h2
    unfold search_for_articles
    rw [h2]
    dsimp only
    rw [hjson]

/-- C10 witness: a 401-style provider error body is parsed and returned as
search results. -/
theorem response_parsed_regardless_of_status_holds :
    search_for_articles (some "k") "q"
        (fun _ => some ⟨401, "\x7b\"message\": \"Unauthorized\"\x7d"⟩)
      = Except.ok (Json.obj [("message", Json.str "Unauthorized")]) :=
  (response_parsed_regardless_of_status (some "k") "q"
      (fun _ => some ⟨401, "\x7b\"message\": \"Unauthorized\"\x7d"⟩) 401
      "\x7b\"message\": \"Unauthorized\"\x7d"
      (Json.obj [("message", Json.str "Unauthorized")]) rfl rfl).1

end RedditGen
